import Mathlib

/-!
# Verification of the real-time monitoring engine of LogInvestigator-Agent

Shallow embedding of `src/backend/logic/monitors/real_time_monitor.py`
(class `RealTimeMonitor` and its helpers), together with proofs of the
behavioural properties stated in the specification.

Conventions of the embedding:
* Python dict-shaped log entries and alerts become Lean structures with the
  same field names.
* The `queue.Queue(maxsize=1000)` buffer becomes a Lean `List` together with
  an explicit capacity; `put_nowait`/`get_nowait` and their `Full`/`Empty`
  exception handling are translated case by case.
* Wall-clock timestamps (`datetime.now().isoformat()`) are threaded through
  as an explicit `now : Nat` parameter; their value never influences control
  flow.
* The external AI collaborator (`self.ai_analyzer.analyze_logs`) is a
  function parameter `ai : List ProjectedEntry → Option String`; `None`
  stands for a failed or empty analysis.
* Thread spawning is reified as a list of `SpawnedTask` values describing
  which daemon threads `start_monitoring` creates.
-/

namespace LogInvestigator

/-- A normalized log entry, the dict built in `_process_log_line`:
`{"timestamp": ..., "level": ..., "message": ..., "source": ..., "critical": ...}`. -/
structure LogEntry where
  timestamp : Nat
  level : String
  message : String
  source : String
  critical : Bool
deriving Repr, DecidableEq

/-- The `content` field of an alert dict: either a log-entry dict
(immediate critical alert) or the analysis text (analysis update alert). -/
inductive AlertContent where
  | entry (e : LogEntry)
  | analysis (s : String)
deriving Repr, DecidableEq

/-- The alert dict built in `_send_alert`:
`{"timestamp": ..., "title": ..., "content": ..., "type": "real_time_alert"}`. -/
structure Alert where
  timestamp : Nat
  title : String
  content : AlertContent
  type : String
deriving Repr, DecidableEq

/-- `self.critical_patterns` as initialized in `RealTimeMonitor.__init__`. -/
def default_critical_patterns : List String :=
  ["error", "exception", "failed", "timeout", "connection refused",
   "out of memory", "disk full", "service unavailable", "crash",
   "segmentation fault", "oom", "panic", "fatal"]

/-- ASCII case folding of one character, the effect of Python `str.lower`
on the ASCII strings handled here. -/
def lowerChar (c : Char) : Char :=
  if 65 ≤ c.toNat ∧ c.toNat ≤ 90 then Char.ofNat (c.toNat + 32) else c

/-- `line.lower()`. -/
def lowerStr (s : String) : String :=
  String.mk (s.data.map lowerChar)

/-- Python's substring test `pat in s`, on explicit character lists. -/
def containsSub (pat : List Char) : List Char → Bool
  | [] => pat.isEmpty
  | c :: rest => pat.isPrefixOf (c :: rest) || containsSub pat rest

/-- The critical-pattern check of `_process_log_line`:
`any(pattern in line_lower for pattern in self.critical_patterns)`
after `line_lower = line.lower()`. -/
def is_critical (patterns : List String) (line : String) : Bool :=
  let line_lower := lowerStr line
  patterns.any (fun p => containsSub p.data line_lower.data)

/-- The entry projection built in `_analyze_logs` before the AI call:
`{"timestamp": ..., "level": ..., "message": ..., "source": ...}`. -/
structure ProjectedEntry where
  timestamp : Nat
  level : String
  message : String
  source : String
deriving Repr, DecidableEq

/-- One `formatted_log` of `_analyze_logs`. -/
def project (log : LogEntry) : ProjectedEntry :=
  { timestamp := log.timestamp, level := log.level,
    message := log.message, source := log.source }

/-- The state of a `RealTimeMonitor` object.  `buffer_capacity` is the
`maxsize=1000` of `queue.Queue`; `observer_started` records whether the
watchdog `Observer` thread created in `__init__` was ever started (the class
never starts it).  `scan_interval`, `buffer_size` and `alert_threshold` come
from environment variables with defaults 30, 100 and 5. -/
structure RealTimeMonitor where
  log_buffer : List LogEntry
  buffer_capacity : Nat
  alert_callbacks : List Nat
  monitoring : Bool
  observer_started : Bool
  scan_interval : Nat
  buffer_size : Nat
  alert_threshold : Nat
  issue_count : Nat
  last_analysis : Option String
  critical_patterns : List String
deriving Repr

/-- `RealTimeMonitor.__init__`, parameterized by the three env-configurable
numbers (defaults `30`, `100`, `5`). -/
def RealTimeMonitor.init (scan_interval buffer_size alert_threshold : Nat) :
    RealTimeMonitor :=
  { log_buffer := []
    buffer_capacity := 1000
    alert_callbacks := []
    monitoring := false
    observer_started := false
    scan_interval := scan_interval
    buffer_size := buffer_size
    alert_threshold := alert_threshold
    issue_count := 0
    last_analysis := none
    critical_patterns := default_critical_patterns }

/-- A fresh monitor with all defaults. -/
def default_monitor : RealTimeMonitor := RealTimeMonitor.init 30 100 5

/-- The buffer-insertion logic of `_process_log_line`:
`put_nowait`; on `queue.Full`, `get_nowait()` (drop the oldest) then
`put_nowait` again; on `queue.Empty` during that recovery, drop the entry. -/
def buffer_put (cap : Nat) (buf : List LogEntry) (e : LogEntry) : List LogEntry :=
  if buf.length < cap then buf ++ [e]
  else
    match buf with
    | [] => []
    | _ :: rest => rest ++ [e]

/-- The alert dict construction of `_send_alert`. -/
def mkAlert (now : Nat) (title : String) (content : AlertContent) : Alert :=
  { timestamp := now, title := title, content := content, type := "real_time_alert" }

/-- `_process_log_line(line, source)`: classify the line, build the entry,
enqueue it (with FIFO eviction on overflow), and emit an immediate critical
alert when a pattern matched.  Returns the new state and the alerts sent. -/
def process_log_line (st : RealTimeMonitor) (line source : String) (now : Nat) :
    RealTimeMonitor × List Alert :=
  let critical_found := is_critical st.critical_patterns line
  let log_entry : LogEntry :=
    { timestamp := now
      level := if critical_found then "ERROR" else "INFO"
      message := line
      source := source
      critical := critical_found }
  let buf := buffer_put st.buffer_capacity st.log_buffer log_entry
  let alerts :=
    if critical_found then
      [mkAlert now ("🚨 CRITICAL ISSUE DETECTED: " ++ line.take 100 ++ "...") (.entry log_entry)]
    else []
  ({ st with log_buffer := buf }, alerts)

/-- One threshold test of `_monitor_system_metrics`: when the sampled value
exceeds 90, feed the synthesized line into `_process_log_line` with source
`"system:metrics"`; otherwise do nothing. -/
def metric_check (st : RealTimeMonitor) (metric_name : String) (value now : Nat) :
    RealTimeMonitor × List Alert :=
  if value > 90 then
    process_log_line st
      ("CRITICAL: High " ++ metric_name ++ " usage detected: " ++ toString value ++ "%")
      "system:metrics" now
  else (st, [])

/-- One pass of the loop body of `_monitor_system_metrics`, with the three
sampled percentages supplied explicitly (the `psutil` stubs): CPU first,
then memory, then disk. -/
def monitor_system_metrics_iteration (st : RealTimeMonitor)
    (cpu_percent memory_percent disk_percent : Nat) (now : Nat) :
    RealTimeMonitor × List Alert :=
  let r1 := metric_check st "CPU" cpu_percent now
  let r2 := metric_check r1.1 "memory" memory_percent now
  let r3 := metric_check r2.1 "disk" disk_percent now
  (r3.1, r1.2 ++ r2.2 ++ r3.2)

/-- The drain loop of `_continuous_analysis`:
`while not self.log_buffer.empty() and len(logs) < self.buffer_size: get_nowait()`.
Returns the drained batch and the remaining buffer. -/
def drainAux (maxN : Nat) (logs : List LogEntry) :
    List LogEntry → List LogEntry × List LogEntry
  | [] => (logs, [])
  | e :: rest =>
    if logs.length < maxN then drainAux maxN (logs ++ [e]) rest
    else (logs, e :: rest)

/-- `_analyze_logs(logs)` with the AI collaborator abstracted as `ai`.
Returns the analysis result together with the number of AI invocations. -/
def analyze_logs (ai : List ProjectedEntry → Option String)
    (alert_threshold : Nat) (logs : List LogEntry) : Option String × Nat :=
  if logs.isEmpty then (none, 0)
  else
    let critical_count := logs.countP (fun log => log.critical)
    if critical_count < alert_threshold then (none, 0)
    else
      let formatted_logs := logs.map project
      (ai formatted_logs, 1)

/-- One pass of the loop body of `_continuous_analysis`: drain up to
`buffer_size` entries, analyze them, and send the analysis-update alert when
the collaborator returned text.  Returns the new state, the alerts sent this
cycle, and the number of AI invocations. -/
def continuous_analysis_cycle (ai : List ProjectedEntry → Option String)
    (st : RealTimeMonitor) (now : Nat) :
    RealTimeMonitor × List Alert × Nat :=
  let (logs, remaining) := drainAux st.buffer_size [] st.log_buffer
  let st' := { st with log_buffer := remaining }
  if logs.isEmpty then (st', [], 0)
  else
    match analyze_logs ai st.alert_threshold logs with
    | (some analysis, n) => (st', [mkAlert now "📊 LOG ANALYSIS UPDATE" (.analysis analysis)], n)
    | (none, n) => (st', [], n)

/-- The callback loop of `_send_alert`: each registered callback is invoked
inside its own `try/except` block; a raising callback is logged and the loop
continues.  Callbacks are labelled so the invocation trace is observable:
the result lists, in invocation order, each callback's label and whether it
returned normally. -/
def run_alert_callbacks (callbacks : List (Nat × (Alert → Except String Unit)))
    (alert : Alert) : List (Nat × Bool) :=
  match callbacks with
  | [] => []
  | (id, cb) :: rest =>
    (match cb alert with
     | .ok _ => (id, true)
     | .error _ => (id, false)) :: run_alert_callbacks rest alert

/-- `_send_alert(title, content)`: build the alert dict, then fan it out to
every registered callback.  Total: no callback error propagates. -/
def send_alert (callbacks : List (Nat × (Alert → Except String Unit)))
    (title : String) (content : AlertContent) (now : Nat) :
    Alert × List (Nat × Bool) :=
  let alert := mkAlert now title content
  (alert, run_alert_callbacks callbacks alert)

/-- `add_alert_callback(callback)`. -/
def add_alert_callback (st : RealTimeMonitor) (cb : Nat) : RealTimeMonitor :=
  { st with alert_callbacks := st.alert_callbacks ++ [cb] }

/-- The daemon threads `start_monitoring` can spawn. -/
inductive SpawnedTask where
  | file_watcher (path : String)
  | system_metrics
  | kubernetes_logs
  | analysis
deriving Repr, DecidableEq

/-- `start_monitoring(log_paths, watch_files, watch_system, watch_kubernetes)`.
`path_exists` stands for `os.path.exists`; the returned list records the
threads spawned.  When `self.monitoring` is already true the method logs a
warning and returns immediately. -/
def start_monitoring (st : RealTimeMonitor) (path_exists : String → Bool)
    (log_paths : Option (List String))
    (watch_files watch_system watch_kubernetes : Bool) :
    RealTimeMonitor × List SpawnedTask :=
  if st.monitoring then (st, [])
  else
    let file_tasks :=
      match log_paths with
      | none => []
      | some paths =>
        if watch_files && !paths.isEmpty then
          (paths.filter path_exists).map SpawnedTask.file_watcher
        else []
    let system_tasks := if watch_system then [SpawnedTask.system_metrics] else []
    let kubernetes_tasks := if watch_kubernetes then [SpawnedTask.kubernetes_logs] else []
    ({ st with monitoring := true },
     file_tasks ++ system_tasks ++ kubernetes_tasks ++ [SpawnedTask.analysis])

/-- CPython `threading.Thread.join` semantics for the watchdog observer:
joining a thread that was never started raises
`RuntimeError("cannot join thread before it is started")`; `Observer` never
overrides `join`, and `RealTimeMonitor` never starts the observer thread. -/
def observer_join (observer_started : Bool) : Except String Unit :=
  if observer_started then Except.ok ()
  else Except.error "cannot join thread before it is started"

/-- `stop_monitoring()`: clear the running flag, `observer.stop()` (sets an
event, never raises), then `observer.join()`.  Returns the state after the
field mutations together with the outcome of the join call. -/
def stop_monitoring (st : RealTimeMonitor) : RealTimeMonitor × Except String Unit :=
  let st' := { st with monitoring := false }
  (st', observer_join st'.observer_started)

/-- The status dict returned by `get_status`. -/
structure MonitorStatus where
  monitoring : Bool
  buffer_size : Nat
  issue_count : Nat
  last_analysis : Option String
  alert_callbacks : Nat
deriving Repr, DecidableEq

/-- `get_status()`. -/
def get_status (st : RealTimeMonitor) : MonitorStatus :=
  { monitoring := st.monitoring
    buffer_size := st.log_buffer.length
    issue_count := st.issue_count
    last_analysis := st.last_analysis
    alert_callbacks := st.alert_callbacks.length }

/-- The state-mutating operations of the monitor, for reasoning about
arbitrary operation sequences. -/
inductive MonitorOp where
  | start (path_exists : String → Bool) (log_paths : Option (List String))
      (watch_files watch_system watch_kubernetes : Bool)
  | stop
  | add_callback (cb : Nat)
  | process_line (line source : String) (now : Nat)
  | analysis_cycle (ai : List ProjectedEntry → Option String) (now : Nat)
  | metrics_iteration (cpu memory disk now : Nat)
  | dispatch (title : String) (content : AlertContent) (now : Nat)

/-- The state reached after one operation. -/
def step (st : RealTimeMonitor) : MonitorOp → RealTimeMonitor
  | .start pe lp wf ws wk => (start_monitoring st pe lp wf ws wk).1
  | .stop => (stop_monitoring st).1
  | .add_callback cb => add_alert_callback st cb
  | .process_line line source now => (process_log_line st line source now).1
  | .analysis_cycle ai now => (continuous_analysis_cycle ai st now).1
  | .metrics_iteration cpu memory disk now =>
      (monitor_system_metrics_iteration st cpu memory disk now).1
  -- `_send_alert` only logs and invokes external callbacks; it does not
  -- mutate any field of the monitor object.
  | .dispatch _ _ _ => st

/-- A monitor whose buffer holds five critical entries, used to exercise the
analysis threshold on a concrete state. -/
def crit5_monitor : RealTimeMonitor :=
  { default_monitor with
    log_buffer := (List.range 5).map (fun i =>
      { timestamp := i, level := "ERROR", message := "error", source := "file:app.log",
        critical := true }) }

theorem containsSub_iff (pat s : List Char) :
    containsSub pat s = true ↔ pat <:+: s := by
  induction s with
  | nil =>
    simp [containsSub, List.isEmpty_iff, List.infix_nil]
  | cons c rest ih =>
    simp [containsSub, List.infix_cons_iff, ih, List.isPrefixOf_iff_prefix]

/-- C2: the critical-pattern check lower-cases the line and succeeds iff some
configured pattern is a substring of the lower-cased line; on the default
pattern set, `"Connection refused by upstream"` matches while
`"all systems normal"` and the empty line do not. -/
theorem critical_pattern_check_spec (patterns : List String) (line : String) :
    (is_critical patterns line = true ↔
      ∃ p ∈ patterns, p.data <:+: (lowerStr line).data)
    ∧ is_critical default_critical_patterns "Connection refused by upstream" = true
    ∧ is_critical default_critical_patterns "all systems normal" = false
    ∧ is_critical default_critical_patterns "" = false := by
  refine ⟨?_, by decide, by decide, by decide⟩
  simp only [is_critical, List.any_eq_true, containsSub_iff]

/-- Folding the eviction-on-overflow insertion over a whole stream keeps the
last `cap` entries: the buffer after the fold is the stream with its oldest
overflowing prefix dropped. -/
theorem foldl_buffer_put (cap : Nat) (hc : 0 < cap) :
    ∀ (es buf : List LogEntry), buf.length ≤ cap →
      List.foldl (buffer_put cap) buf es =
        (buf ++ es).drop (buf.length + es.length - cap)
  | [], buf, h => by
    simp [Nat.sub_eq_zero_of_le h]
  | e :: rest, buf, h => by
    rw [List.foldl_cons]
    by_cases hlt : buf.length < cap
    · have hput : buffer_put cap buf e = buf ++ [e] := by
        simp [buffer_put, hlt]
      rw [hput, foldl_buffer_put cap hc rest (buf ++ [e]) (by simp; omega),
        List.append_assoc, List.singleton_append,
        show (buf ++ [e]).length + rest.length - cap
            = buf.length + (e :: rest).length - cap by
          simp only [List.length_append, List.length_singleton, List.length_cons, List.length_nil]
          omega]
    · have heq : buf.length = cap := Nat.le_antisymm h (Nat.not_lt.mp hlt)
      cases buf with
      | nil => simp at heq; omega
      | cons b bs =>
        have hbs : bs.length + 1 = cap := by simpa using heq
        have hput : buffer_put cap (b :: bs) e = bs ++ [e] := by
          simp only [buffer_put, hlt, if_false]
        rw [hput, foldl_buffer_put cap hc rest (bs ++ [e]) (by simp; omega),
          List.append_assoc, List.singleton_append, List.cons_append]
        have h2 : (b :: bs).length + (e :: rest).length - cap = rest.length + 1 := by
          simp only [List.length_cons]
          omega
        rw [show (bs ++ [e]).length + rest.length - cap = rest.length by
              simp only [List.length_append, List.length_singleton, List.length_cons, List.length_nil]; omega,
          h2, List.drop_succ_cons]

/-- C1: enqueue inserts at the tail, evicts the head when at capacity, and a
sequence of more than `cap` enqueues into an empty buffer leaves exactly the
last `cap` entries in arrival order. -/
theorem buffer_fifo_eviction (cap : Nat) (es : List LogEntry)
    (hc : 0 < cap) (hlen : cap < es.length) :
    List.foldl (buffer_put cap) [] es = es.drop (es.length - cap)
    ∧ (List.foldl (buffer_put cap) [] es).length = cap
    ∧ (∀ buf e, buf.length < cap → buffer_put cap buf e = buf ++ [e])
    ∧ (∀ buf e, buf.length = cap → buffer_put cap buf e = buf.tail ++ [e]) := by
  have hfold := foldl_buffer_put cap hc es [] (by simp)
  simp only [List.nil_append, List.length_nil, Nat.zero_add] at hfold
  refine ⟨hfold, ?_, ?_, ?_⟩
  · rw [hfold, List.length_drop]
    omega
  · intro buf e hlt
    simp [buffer_put, hlt]
  · intro buf e hcap
    cases buf with
    | nil => simp at hcap; omega
    | cons b bs =>
      simp only [buffer_put, hcap, Nat.lt_irrefl, if_false, List.tail_cons]

/-- Concrete instance of the FIFO eviction law: capacity 2, three enqueues. -/
theorem buffer_fifo_eviction_witness :
    List.foldl (buffer_put 2) []
        [⟨0, "INFO", "a", "file:a.log", false⟩,
         ⟨1, "INFO", "b", "file:a.log", false⟩,
         ⟨2, "INFO", "c", "file:a.log", false⟩] =
      [⟨1, "INFO", "b", "file:a.log", false⟩,
       ⟨2, "INFO", "c", "file:a.log", false⟩] := by
  have h := buffer_fifo_eviction 2
    [⟨0, "INFO", "a", "file:a.log", false⟩,
     ⟨1, "INFO", "b", "file:a.log", false⟩,
     ⟨2, "INFO", "c", "file:a.log", false⟩] (by decide) (by decide)
  exact h.1

/-- The drain loop collects the first `min maxN length` entries in FIFO order
and leaves the rest in the buffer. -/
theorem drainAux_spec (maxN : Nat) :
    ∀ (buf acc : List LogEntry), acc.length ≤ maxN →
      drainAux maxN acc buf =
        (acc ++ buf.take (maxN - acc.length), buf.drop (maxN - acc.length))
  | [], acc, h => by
    simp [drainAux]
  | e :: rest, acc, h => by
    simp only [drainAux]
    by_cases hlt : acc.length < maxN
    · rw [if_pos hlt, drainAux_spec maxN rest (acc ++ [e]) (by simp; omega)]
      obtain ⟨k, hk⟩ : ∃ k, maxN - acc.length = k + 1 :=
        ⟨maxN - acc.length - 1, by omega⟩
      have hk2 : maxN - (acc ++ [e]).length = k := by
        simp only [List.length_append, List.length_singleton, List.length_cons,
          List.length_nil]
        omega
      rw [hk, hk2, List.take_succ_cons, List.drop_succ_cons, List.append_assoc,
        List.singleton_append]
    · have heq : acc.length = maxN := Nat.le_antisymm h (Nat.not_lt.mp hlt)
      rw [if_neg hlt]
      simp [heq]

/-- C9: draining an empty buffer returns an empty batch without error, and in
general the drain removes and returns at most `maxN` entries in FIFO order
(the batch is the front of the buffer, the remainder stays). -/
theorem drain_buffer_spec (maxN : Nat) (buf : List LogEntry) :
    drainAux maxN [] [] = ([], [])
    ∧ drainAux maxN [] buf = (buf.take maxN, buf.drop maxN)
    ∧ (drainAux maxN [] buf).1.length ≤ maxN
    ∧ (drainAux maxN [] buf).1 ++ (drainAux maxN [] buf).2 = buf := by
  have h := drainAux_spec maxN buf [] (by simp)
  simp only [List.nil_append, List.length_nil, Nat.sub_zero] at h
  refine ⟨rfl, h, ?_, ?_⟩
  · rw [h]
    simp only [List.length_take]
    exact Nat.min_le_left _ _
  · rw [h]
    exact List.take_append_drop maxN buf

/-- `_continuous_analysis` characterized without the intermediate drain pair:
the batch is the front `buffer_size` entries, the new buffer is the rest, and
the alert/invocation outcome follows `_analyze_logs` on the batch. -/
theorem continuous_analysis_cycle_eq (ai : List ProjectedEntry → Option String)
    (st : RealTimeMonitor) (now : Nat) :
    continuous_analysis_cycle ai st now =
      if (st.log_buffer.take st.buffer_size).isEmpty then
        ({ st with log_buffer := st.log_buffer.drop st.buffer_size }, [], 0)
      else
        match analyze_logs ai st.alert_threshold (st.log_buffer.take st.buffer_size) with
        | (some analysis, n) =>
          ({ st with log_buffer := st.log_buffer.drop st.buffer_size },
           [mkAlert now "📊 LOG ANALYSIS UPDATE" (.analysis analysis)], n)
        | (none, n) =>
          ({ st with log_buffer := st.log_buffer.drop st.buffer_size }, [], n) := by
  have h := drainAux_spec st.buffer_size st.log_buffer [] (by simp)
  simp only [List.nil_append, List.length_nil, Nat.sub_zero] at h
  unfold continuous_analysis_cycle
  rw [h]

/-- Below the threshold, `_analyze_logs` returns no analysis and never calls
the AI collaborator. -/
theorem analyze_logs_below (ai : List ProjectedEntry → Option String)
    (th : Nat) (logs : List LogEntry)
    (h : logs.countP (fun log => log.critical) < th) :
    analyze_logs ai th logs = (none, 0) := by
  by_cases he : logs.isEmpty
  · simp [analyze_logs, he]
  · simp [analyze_logs, he, h]

/-- At or above the threshold, `_analyze_logs` calls the AI collaborator
exactly once, on the projected batch. -/
theorem analyze_logs_above (ai : List ProjectedEntry → Option String)
    (th : Nat) (logs : List LogEntry)
    (hth : 0 < th) (h : th ≤ logs.countP (fun log => log.critical)) :
    analyze_logs ai th logs = (ai (logs.map project), 1) := by
  have hne : logs.isEmpty = false := by
    cases logs with
    | nil => simp at h; omega
    | cons x xs => rfl
  simp [analyze_logs, hne, Nat.not_lt.mpr h]

/-- C3: in a drain cycle, a batch whose critical count is below the threshold
triggers zero AI invocations and is discarded without re-enqueueing, while a
batch at or above the threshold triggers exactly one AI invocation, on the
batch projected to timestamp/level/message/source. -/
theorem analysis_threshold_gate (ai : List ProjectedEntry → Option String)
    (st : RealTimeMonitor) (now : Nat) (hth : 0 < st.alert_threshold) :
    ((st.log_buffer.take st.buffer_size).countP (fun log => log.critical)
        < st.alert_threshold →
      (continuous_analysis_cycle ai st now).2.2 = 0)
    ∧ (st.alert_threshold
        ≤ (st.log_buffer.take st.buffer_size).countP (fun log => log.critical) →
      (continuous_analysis_cycle ai st now).2.2 = 1
      ∧ analyze_logs ai st.alert_threshold (st.log_buffer.take st.buffer_size)
          = (ai ((st.log_buffer.take st.buffer_size).map project), 1))
    ∧ (continuous_analysis_cycle ai st now).1.log_buffer
        = st.log_buffer.drop st.buffer_size := by
  rw [continuous_analysis_cycle_eq]
  refine ⟨?_, ?_, ?_⟩
  · intro hlt
    by_cases hemp : (st.log_buffer.take st.buffer_size).isEmpty
    · simp [hemp]
    · rw [analyze_logs_below ai _ _ hlt]
      simp [hemp]
  · intro hge
    have hana := analyze_logs_above ai st.alert_threshold
      (st.log_buffer.take st.buffer_size) hth hge
    have hemp : (st.log_buffer.take st.buffer_size).isEmpty = false := by
      cases hl : st.log_buffer.take st.buffer_size with
      | nil => rw [hl] at hge; simp at hge; omega
      | cons x xs => rfl
    refine ⟨?_, hana⟩
    rw [hana]
    cases hai : ai ((st.log_buffer.take st.buffer_size).map project) with
    | none => simp [hemp, hai]
    | some text => simp [hemp, hai]
  · by_cases hemp : (st.log_buffer.take st.buffer_size).isEmpty
    · simp [hemp]
    · cases hana : analyze_logs ai st.alert_threshold (st.log_buffer.take st.buffer_size) with
      | mk res n =>
        cases res with
        | none => simp [hemp, hana]
        | some text => simp [hemp, hana]

/-- Concrete instance of the threshold gate: five critical entries, default
threshold 5, a stub collaborator — exactly one AI invocation in the cycle. -/
theorem analysis_threshold_gate_witness :
    (continuous_analysis_cycle (fun _ => some "diagnosis") crit5_monitor 0).2.2 = 1 :=
  ((analysis_threshold_gate (fun _ => some "diagnosis") crit5_monitor 0
    (by decide)).2.1 (by decide)).1

/-- C7 counterexample: for an above-threshold batch and a collaborator that
returns text, the dispatched analysis alert's title is
"📊 LOG ANALYSIS UPDATE" — not "LOG ANALYSIS UPDATE" as claimed — and the
alert carries the same "real_time_alert" type tag as an immediate critical
alert, so it is not distinguished as a separate ANALYSIS kind. -/
theorem analysis_alert_title_counterexample :
    ((continuous_analysis_cycle (fun _ => some "diagnosis") crit5_monitor 0).2.1.map
        Alert.title = ["📊 LOG ANALYSIS UPDATE"])
    ∧ ¬ ((continuous_analysis_cycle (fun _ => some "diagnosis") crit5_monitor 0).2.1.map
        Alert.title = ["LOG ANALYSIS UPDATE"])
    ∧ ((continuous_analysis_cycle (fun _ => some "diagnosis") crit5_monitor 0).2.1.map
        Alert.type = ["real_time_alert"])
    ∧ ((process_log_line default_monitor "error" "file:app.log" 0).2.map
        Alert.type = ["real_time_alert"]) := by
  decide

/-- C7 (amended): when the collaborator returns text for the drained batch,
the scheduler dispatches exactly one analysis alert that cycle, with title
"📊 LOG ANALYSIS UPDATE" (which contains "LOG ANALYSIS UPDATE") and the
shared type tag "real_time_alert"; when it returns no text, no analysis
alert is dispatched that cycle. -/
theorem analysis_alert_dispatch (ai : List ProjectedEntry → Option String)
    (st : RealTimeMonitor) (now : Nat) :
    (∀ text : String,
      (analyze_logs ai st.alert_threshold (st.log_buffer.take st.buffer_size)).1
          = some text →
      (continuous_analysis_cycle ai st now).2.1
        = [{ timestamp := now, title := "📊 LOG ANALYSIS UPDATE",
             content := AlertContent.analysis text, type := "real_time_alert" }])
    ∧ ((analyze_logs ai st.alert_threshold (st.log_buffer.take st.buffer_size)).1
          = none →
      (continuous_analysis_cycle ai st now).2.1 = [])
    ∧ containsSub "LOG ANALYSIS UPDATE".data "📊 LOG ANALYSIS UPDATE".data = true := by
  refine ⟨?_, ?_, by decide⟩
  · intro text htext
    rw [continuous_analysis_cycle_eq]
    have hemp : (st.log_buffer.take st.buffer_size).isEmpty = false := by
      cases hl : st.log_buffer.take st.buffer_size with
      | nil => rw [hl] at htext; simp [analyze_logs] at htext
      | cons x xs => rfl
    rcases hana : analyze_logs ai st.alert_threshold (st.log_buffer.take st.buffer_size)
      with ⟨res, n⟩
    rw [hana] at htext
    simp only at htext
    subst htext
    simp [hemp, hana, mkAlert]
  · intro htext
    rw [continuous_analysis_cycle_eq]
    by_cases hemp : (st.log_buffer.take st.buffer_size).isEmpty
    · simp [hemp]
    · rcases hana : analyze_logs ai st.alert_threshold (st.log_buffer.take st.buffer_size)
        with ⟨res, n⟩
      rw [hana] at htext
      simp only at htext
      subst htext
      simp [hemp, hana]

/-- Concrete instance of the amended analysis-alert dispatch. -/
theorem analysis_alert_dispatch_witness :
    (continuous_analysis_cycle (fun _ => some "diagnosis") crit5_monitor 3).2.1
      = [{ timestamp := 3, title := "📊 LOG ANALYSIS UPDATE",
           content := AlertContent.analysis "diagnosis", type := "real_time_alert" }] :=
  (analysis_alert_dispatch (fun _ => some "diagnosis") crit5_monitor 3).1 "diagnosis"
    (by decide)

/-- C4 (code-bug evidence): a CPU sample of 95% synthesizes the line
"CRITICAL: High CPU usage detected: 95%", which matches none of the default
critical patterns, so the entry is enqueued with level INFO and
critical = false and *no* alert is dispatched — even though the line does
contain "95". -/
theorem cpu95_sample_produces_no_alert :
    ((monitor_system_metrics_iteration default_monitor 95 0 0 0).2 = [])
    ∧ ((monitor_system_metrics_iteration default_monitor 95 0 0 0).1.log_buffer
        = [{ timestamp := 0, level := "INFO",
             message := "CRITICAL: High CPU usage detected: 95%",
             source := "system:metrics", critical := false }])
    ∧ (is_critical default_critical_patterns
        "CRITICAL: High CPU usage detected: 95%" = false)
    ∧ (containsSub "95".data "CRITICAL: High CPU usage detected: 95%".data = true) := by
  decide

/-- C5 (code-bug evidence): stopping a monitor that never started clears the
running flag but then `observer.join()` raises — CPython's
`threading.Thread.join` raises `RuntimeError` for a never-started thread,
and the watchdog observer created in `__init__` is never started. -/
theorem stop_never_started_raises :
    ((stop_monitoring default_monitor).1.monitoring = false)
    ∧ ((stop_monitoring default_monitor).2
        = Except.error "cannot join thread before it is started") :=
  ⟨rfl, rfl⟩

/-- The callback loop invokes every registered callback, in registration
order: the invocation trace lists exactly the registered labels. -/
theorem run_alert_callbacks_ids (callbacks : List (Nat × (Alert → Except String Unit)))
    (alert : Alert) :
    (run_alert_callbacks callbacks alert).map Prod.fst = callbacks.map Prod.fst := by
  induction callbacks with
  | nil => rfl
  | cons c rest ih =>
    obtain ⟨id, cb⟩ := c
    simp only [run_alert_callbacks]
    cases hcb : cb alert <;> simp [hcb, ih]

/-- One trace element per registered callback. -/
theorem run_alert_callbacks_length (callbacks : List (Nat × (Alert → Except String Unit)))
    (alert : Alert) :
    (run_alert_callbacks callbacks alert).length = callbacks.length := by
  induction callbacks with
  | nil => rfl
  | cons c rest ih =>
    obtain ⟨id, cb⟩ := c
    simp only [run_alert_callbacks]
    cases hcb : cb alert <;> simp [hcb, ih]

/-- C6: dispatching an alert invokes every registered observer exactly once,
in registration order, and dispatch is total — a raising observer is recorded
as failed but neither prevents later observers nor propagates; concretely,
with a first observer that raises and a second that succeeds, both appear in
the trace in order. -/
theorem dispatch_invokes_all_in_order
    (callbacks : List (Nat × (Alert → Except String Unit)))
    (title : String) (content : AlertContent) (now : Nat) :
    ((send_alert callbacks title content now).2.map Prod.fst = callbacks.map Prod.fst)
    ∧ ((send_alert callbacks title content now).2.length = callbacks.length)
    ∧ ((send_alert
          [(0, fun _ => Except.error "observer failure"), (1, fun _ => Except.ok ())]
          title content now).2 = [(0, false), (1, true)]) :=
  ⟨run_alert_callbacks_ids callbacks _, run_alert_callbacks_length callbacks _, rfl⟩

/-- C8: starting an already-running controller is rejected as a pure no-op:
the returned state is the old state itself (buffer, callback registry,
pattern set and running flag all unchanged) and no task is spawned. -/
theorem start_when_running_noop (st : RealTimeMonitor) (path_exists : String → Bool)
    (log_paths : Option (List String))
    (watch_files watch_system watch_kubernetes : Bool)
    (h : st.monitoring = true) :
    start_monitoring st path_exists log_paths watch_files watch_system watch_kubernetes
      = (st, []) := by
  simp [start_monitoring, h]

/-- Concrete instance of the running-start no-op. -/
theorem start_when_running_noop_witness :
    start_monitoring { default_monitor with monitoring := true } (fun _ => true)
        (some ["app.log"]) true true false
      = ({ default_monitor with monitoring := true }, []) :=
  start_when_running_noop _ _ _ _ _ _ rfl

/-- A metric check never touches `issue_count` or `last_analysis`. -/
theorem metric_check_counters (st : RealTimeMonitor) (metric_name : String)
    (value now : Nat) :
    ((metric_check st metric_name value now).1.issue_count = st.issue_count)
    ∧ ((metric_check st metric_name value now).1.last_analysis = st.last_analysis) := by
  by_cases h : value > 90
  · have hm : metric_check st metric_name value now
        = process_log_line st
            ("CRITICAL: High " ++ metric_name ++ " usage detected: " ++ toString value ++ "%")
            "system:metrics" now := by
      unfold metric_check
      rw [if_pos h]
    rw [hm]
    exact ⟨rfl, rfl⟩
  · have hm : metric_check st metric_name value now = (st, []) := by
      unfold metric_check
      rw [if_neg h]
    rw [hm]
    exact ⟨rfl, rfl⟩

/-- The first component of an analysis cycle is the old state with the
drained prefix removed from the buffer; no other field changes. -/
theorem continuous_analysis_cycle_fst (ai : List ProjectedEntry → Option String)
    (st : RealTimeMonitor) (now : Nat) :
    (continuous_analysis_cycle ai st now).1
      = { st with log_buffer := st.log_buffer.drop st.buffer_size } := by
  rw [continuous_analysis_cycle_eq]
  by_cases hemp : (st.log_buffer.take st.buffer_size).isEmpty
  · simp [hemp]
  · rcases hana : analyze_logs ai st.alert_threshold (st.log_buffer.take st.buffer_size)
      with ⟨res, n⟩
    cases res <;> simp [hemp, hana]

/-- No monitor operation ever writes `issue_count` or `last_analysis`. -/
theorem step_preserves_counters (st : RealTimeMonitor) (op : MonitorOp) :
    ((step st op).issue_count = st.issue_count)
    ∧ ((step st op).last_analysis = st.last_analysis) := by
  cases op with
  | start pe lp wf ws wk =>
    by_cases h : st.monitoring
    · have hm : start_monitoring st pe lp wf ws wk = (st, []) := by
        unfold start_monitoring
        rw [if_pos h]
      show ((start_monitoring st pe lp wf ws wk).1.issue_count = st.issue_count)
        ∧ ((start_monitoring st pe lp wf ws wk).1.last_analysis = st.last_analysis)
      rw [hm]
      exact ⟨rfl, rfl⟩
    · have hm : (start_monitoring st pe lp wf ws wk).1
          = { st with monitoring := true } := by
        unfold start_monitoring
        rw [if_neg h]
      show ((start_monitoring st pe lp wf ws wk).1.issue_count = st.issue_count)
        ∧ ((start_monitoring st pe lp wf ws wk).1.last_analysis = st.last_analysis)
      rw [hm]
      exact ⟨rfl, rfl⟩
  | stop => exact ⟨rfl, rfl⟩
  | add_callback cb => exact ⟨rfl, rfl⟩
  | process_line line source now => exact ⟨rfl, rfl⟩
  | analysis_cycle ai now =>
    show ((continuous_analysis_cycle ai st now).1.issue_count = st.issue_count)
      ∧ ((continuous_analysis_cycle ai st now).1.last_analysis = st.last_analysis)
    rw [continuous_analysis_cycle_fst]
    exact ⟨rfl, rfl⟩
  | metrics_iteration cpu memory disk now =>
    refine ⟨?_, ?_⟩
    · show (metric_check (metric_check (metric_check st "CPU" cpu now).1
          "memory" memory now).1 "disk" disk now).1.issue_count = st.issue_count
      rw [(metric_check_counters _ _ _ _).1, (metric_check_counters _ _ _ _).1,
        (metric_check_counters _ _ _ _).1]
    · show (metric_check (metric_check (metric_check st "CPU" cpu now).1
          "memory" memory now).1 "disk" disk now).1.last_analysis = st.last_analysis
      rw [(metric_check_counters _ _ _ _).2, (metric_check_counters _ _ _ _).2,
        (metric_check_counters _ _ _ _).2]
  | dispatch title content now => exact ⟨rfl, rfl⟩

/-- Folding any operation sequence preserves the two untouched fields. -/
theorem foldl_step_counters (ops : List MonitorOp) :
    ∀ st : RealTimeMonitor,
      ((ops.foldl step st).issue_count = st.issue_count)
      ∧ ((ops.foldl step st).last_analysis = st.last_analysis) := by
  induction ops with
  | nil => intro st; exact ⟨rfl, rfl⟩
  | cons op rest ih =>
    intro st
    rw [List.foldl_cons]
    obtain ⟨h1, h2⟩ := step_preserves_counters st op
    obtain ⟨h3, h4⟩ := ih (step st op)
    exact ⟨h3.trans h1, h4.trans h2⟩

/-- C10: after any sequence of monitor operations starting from a fresh
monitor (any configuration values), the status snapshot always reports
`issue_count = 0` and `last_analysis = none`: no operation ever mutates
these fields after initialization. -/
theorem status_counters_never_change (scan_interval buffer_size alert_threshold : Nat)
    (ops : List MonitorOp) :
    ((get_status (ops.foldl step
        (RealTimeMonitor.init scan_interval buffer_size alert_threshold))).issue_count = 0)
    ∧ ((get_status (ops.foldl step
        (RealTimeMonitor.init scan_interval buffer_size alert_threshold))).last_analysis
          = none) := by
  obtain ⟨h1, h2⟩ := foldl_step_counters ops
    (RealTimeMonitor.init scan_interval buffer_size alert_threshold)
  exact ⟨h1, h2⟩

end LogInvestigator
